import Mathlib

/-!
Verification of the relay-tunneling host core (Go sources: the host main
program with its relay registration loop and tunnel bridge, and the
client-side relay session initiator).  Go values are embedded shallowly:
Go strings become Lean `String`, Go errors become an explicit datatype,
byte slices become `List Nat`, and the effectful loops become pure
step functions over explicit state together with lists of emitted effects.
-/

/-- Boolean model of Go strings.Contains: substring occurrence, expressed via
list-infix on the character lists of the two strings. -/
def goContains (s sub : String) : Bool := decide (sub.toList <:+: s.toList)

/-- Model of a Go error value: nil is modelled as none, the io.EOF sentinel is a
distinguished constructor, and any other error carries its message string. -/
inductive GoError
  | eof
  | mk (msg : String)
deriving DecidableEq

/-- Model of isNetworkCloseError from the host main program: nil is not a close
error, io.EOF is, and otherwise the error message is searched for the four
substrings checked by the code. -/
def isNetworkCloseError : Option GoError → Bool
  | none => false
  | some GoError.eof => true
  | some (GoError.mk msg) =>
      goContains msg "use of closed network connection" ||
      goContains msg "connection reset by peer" ||
      goContains msg "broken pipe" ||
      goContains msg "forcibly closed"

/-- If a is an infix of b and a string contains b, it also contains a. -/
theorem goContains_mono {s a b : String} (hab : a.toList <:+: b.toList)
    (h : goContains s b = true) : goContains s a = true := by
  have hb : b.toList <:+: s.toList := of_decide_eq_true h
  exact decide_eq_true (hab.trans hb)

/-- Lowercase hexadecimal digit for a value below 16, as produced by Go
encoding/hex. -/
def hexDigit (n : Nat) : Char := Char.ofNat (if n < 10 then 48 + n else 87 + n)

/-- The two hex digits of one byte, high nibble first (Go encoding/hex). -/
def hexEncodeByte (b : Nat) : List Char := [hexDigit (b / 16), hexDigit (b % 16)]

/-- Hex encoding of a byte slice as a character list (Go hex.EncodeToString). -/
def hexEncodeList : List Nat → List Char
  | [] => []
  | b :: bs => hexEncodeByte b ++ hexEncodeList bs

/-- Go fmt verb %08d applied to a natural number: decimal digits left-padded
with zeros to width 8. -/
def goPad8 (n : Nat) : String :=
  let s := toString n
  String.mk (List.replicate (8 - s.length) (Char.ofNat 48)) ++ s

/-- Model of generateRandomHostID.  The outcome of crypto/rand Read is passed
in explicitly: on success it yields the byteLength random bytes that filled the
buffer, on failure the timestamp fallback string is produced from the current
UnixNano value. -/
def generateRandomHostID (byteLength : Nat) (randBytes : Option (List Nat))
    (nowUnixNano : Nat) : String :=
  match randBytes with
  | none => "randfail" ++ goPad8 (nowUnixNano % 100000000)
  | some bs => String.mk (hexEncodeList bs)

theorem hexEncodeList_length (bs : List Nat) :
    (hexEncodeList bs).length = 2 * bs.length := by
  induction bs with
  | nil => rfl
  | cons b bs ih =>
      simp [hexEncodeList, hexEncodeByte, ih]
      ring

/-- The initial FeedRequest fields used by getScaleFactors (proto int32
dimensions reported by the client). -/
structure FeedRequest where
  clientWidth : Int
  clientHeight : Int
deriving DecidableEq

/-- Model of getScaleFactors from the gRPC service: a zero client dimension
short-circuits to the neutral factors, otherwise each server dimension is
divided by the corresponding client dimension (real division modelled over
the rationals). -/
def getScaleFactors (serverWidth serverHeight : Int) (reqMsgInit : FeedRequest) :
    ℚ × ℚ :=
  if reqMsgInit.clientWidth = 0 ∨ reqMsgInit.clientHeight = 0 then (1, 1)
  else ((serverWidth : ℚ) / (reqMsgInit.clientWidth : ℚ),
        (serverHeight : ℚ) / (reqMsgInit.clientHeight : ℚ))

/-- The externally observable state of the wrapped gRPC server instance. -/
inductive GrpcServerState
  | running
  | stopped
deriving DecidableEq

/-- The only field of the server record that tryGracefulShutdown consults:
the gRPC server instance, or none when it was never created. -/
structure ShutdownServer where
  grpcServer : Option GrpcServerState
deriving DecidableEq

/-- Model of tryGracefulShutdown.  A nil instance returns false and changes
nothing.  Otherwise the code waits for GracefulStop up to the timeout and
forces Stop on expiry; whether the graceful path finished in time is passed in
as a boolean, and on either branch the server ends stopped and the call
returns true.  The instance field is never reset to none. -/
def tryGracefulShutdown (s : ShutdownServer) (gracefulFinishesInTime : Bool) :
    Bool × ShutdownServer :=
  match s.grpcServer with
  | none => (false, s)
  | some _ => (true, ⟨some GrpcServerState.stopped⟩)

/-- Claim C4: isNetworkCloseError returns true for io.EOF and for every error
whose message contains one of the listed close phrases (including the
forcibly-closed-by-the-remote-host variant), and returns false for a nil error
and for an error whose message contains none of the code's four patterns. -/
theorem C4_isNetworkCloseError_classification (msg : String) :
    isNetworkCloseError (some GoError.eof) = true ∧
    isNetworkCloseError none = false ∧
    (goContains msg "use of closed network connection" = true →
      isNetworkCloseError (some (GoError.mk msg)) = true) ∧
    (goContains msg "connection reset by peer" = true →
      isNetworkCloseError (some (GoError.mk msg)) = true) ∧
    (goContains msg "An existing connection was forcibly closed by the remote host." = true →
      isNetworkCloseError (some (GoError.mk msg)) = true) ∧
    (goContains msg "broken pipe" = true →
      isNetworkCloseError (some (GoError.mk msg)) = true) ∧
    (goContains msg "use of closed network connection" = false →
      goContains msg "connection reset by peer" = false →
      goContains msg "broken pipe" = false →
      goContains msg "forcibly closed" = false →
      isNetworkCloseError (some (GoError.mk msg)) = false) := by
  refine ⟨rfl, rfl, ?_, ?_, ?_, ?_, ?_⟩
  · intro h; simp [isNetworkCloseError, h]
  · intro h; simp [isNetworkCloseError, h]
  · intro h
    have hfc : goContains msg "forcibly closed" = true :=
      goContains_mono (by decide) h
    simp [isNetworkCloseError, hfc]
  · intro h; simp [isNetworkCloseError, h]
  · intro h1 h2 h3 h4
    simp [isNetworkCloseError, h1, h2, h3, h4]

/-- Witness for C4 at the concrete inputs used by the repository's own test
table: a reset error message is classified true, and an unrelated message is
classified false. -/
theorem C4_witness :
    isNetworkCloseError (some (GoError.mk "read: connection reset by peer")) = true ∧
    isNetworkCloseError (some (GoError.mk "some other failure")) = false :=
  ⟨(C4_isNetworkCloseError_classification "read: connection reset by peer").2.2.2.1
      (by decide),
   (C4_isNetworkCloseError_classification "some other failure").2.2.2.2.2.2
      (by decide) (by decide) (by decide) (by decide)⟩

/-- Claim C9: when random generation succeeds and fills the byteLength-byte
buffer, the identity is a hex string of length exactly 2 times byteLength;
when it fails, the timestamp fallback is still a non-empty string. -/
theorem C9_generateRandomHostID_length (byteLength : Nat) (bs : List Nat)
    (nowUnixNano : Nat) (hlen : bs.length = byteLength) :
    (generateRandomHostID byteLength (some bs) nowUnixNano).length = 2 * byteLength ∧
    generateRandomHostID byteLength none nowUnixNano ≠ "" := by
  constructor
  · show (String.mk (hexEncodeList bs)).length = 2 * byteLength
    have : (String.mk (hexEncodeList bs)).length = (hexEncodeList bs).length := rfl
    rw [this, hexEncodeList_length, hlen]
  · intro hcontra
    have hdata := congrArg String.data hcontra
    simp [generateRandomHostID] at hdata

/-- Witness for C9: four random bytes give an eight-character hex identity, and
the fallback string is non-empty. -/
theorem C9_witness :
    (generateRandomHostID 4 (some [0, 255, 16, 161]) 12345).length = 2 * 4 ∧
    generateRandomHostID 4 none 12345 ≠ "" :=
  C9_generateRandomHostID_length 4 [0, 255, 16, 161] 12345 (by decide)

/-- Claim C10: a zero reported client width or height makes getScaleFactors
return the neutral factors (1, 1), so the mouse-coordinate scaling set up by
GetFeed never divides by the client dimensions in that case. -/
theorem C10_getScaleFactors_zero (serverWidth serverHeight : Int)
    (req : FeedRequest) (h : req.clientWidth = 0 ∨ req.clientHeight = 0) :
    getScaleFactors serverWidth serverHeight req = (1, 1) := by
  simp [getScaleFactors, h]

/-- Witness for C10: a client reporting width 0 yields scale factors (1, 1). -/
theorem C10_witness : getScaleFactors 1920 1080 ⟨0, 600⟩ = (1, 1) :=
  C10_getScaleFactors_zero 1920 1080 ⟨0, 600⟩ (by decide)

/-- Counterexample to claim C6 as stated: after a first successful stop the
server instance field still holds the (now stopped) instance, so a second call
takes the shutdown path again and returns true, not the claimed false
(no-action report). -/
theorem C6_counterexample :
    (tryGracefulShutdown
      (tryGracefulShutdown ⟨some GrpcServerState.running⟩ true).2 true).1 ≠ false := by
  decide

/-- Claim C6 amended: tryGracefulShutdown returns false (and changes nothing)
exactly when the server was never started (nil instance); whenever an instance
exists it stops it and returns true, and repeat calls after a stop cause no
fault but again report true, leaving the server stopped. -/
theorem C6_amended (g g2 : Bool) (st : GrpcServerState) :
    tryGracefulShutdown ⟨none⟩ g = (false, ⟨none⟩) ∧
    (tryGracefulShutdown ⟨some st⟩ g).1 = true ∧
    (tryGracefulShutdown ⟨some st⟩ g).2 = ⟨some GrpcServerState.stopped⟩ ∧
    tryGracefulShutdown (tryGracefulShutdown ⟨some st⟩ g).2 g2 =
      (true, ⟨some GrpcServerState.stopped⟩) := by
  cases st <;> simp [tryGracefulShutdown]

/-- ASCII whitespace recognized by the field splitter (the protocol lines use
spaces; tabs, newlines, carriage returns and vertical whitespace are included
as in Go's unicode.IsSpace for the ASCII range). -/
def goIsSpace (c : Char) : Bool :=
  c == ' ' || c == '\t' || c == '\n' || c == '\r' ||
  c == Char.ofNat 11 || c == Char.ofNat 12

/-- Accumulator-based splitter over characters: collects maximal runs of
non-whitespace characters, in order. -/
def wordsAux : List Char → List Char → List String
  | [], acc => if acc.isEmpty then [] else [String.mk acc.reverse]
  | c :: cs, acc =>
    if goIsSpace c then
      if acc.isEmpty then wordsAux cs [] else String.mk acc.reverse :: wordsAux cs []
    else wordsAux cs (c :: acc)

/-- Model of Go strings.Fields: split around runs of whitespace, dropping
empty fields. -/
def goFields (s : String) : List String := wordsAux s.toList []

/-- Model of Go strings.TrimSpace: remove leading and trailing whitespace. -/
def goTrimSpace (s : String) : String :=
  String.mk (((s.toList.dropWhile goIsSpace).reverse.dropWhile goIsSpace).reverse)

/-- Model of Go strings.Join with a single-space separator. -/
def goJoinSpace : List String → String
  | [] => ""
  | [x] => x
  | x :: xs => x ++ " " ++ goJoinSpace xs

/-- Go fmt verb %t: the literal words true and false. -/
def goBoolStr (b : Bool) : String := if b then "true" else "false"

/-- Model of net.SplitHostPort for bracket-free addresses: split at the last
colon, failing when the address has no colon (Go then reports a
missing-port-in-address error). -/
def goSplitHostPort (s : String) : Option (String × String) :=
  match s.toList.reverse.span (fun c => !(c == ':')) with
  | (_, []) => none
  | (portRev, _ :: hostRev) => some (String.mk hostRev.reverse, String.mk portRev.reverse)

/-- Model of net.JoinHostPort: host and port joined by a colon, with the host
bracketed when it itself contains a colon. -/
def goJoinHostPort (host port : String) : String :=
  if goContains host ":" then "[" ++ host ++ "]:" ++ port else host ++ ":" ++ port

/-- The mutable host-side state read and written by the relay control loop:
the live host identity and the configured password hash. -/
structure HostState where
  currentRelayHostID : String
  sessionPasswordHash : String
deriving DecidableEq

/-- Observable effects of dispatching one relay control line: a line written
back to the relay control connection, a line written to standard output, or an
asynchronous tunnel-bridge launch. -/
inductive RelayEffect
  | sendToRelay (line : String)
  | stdoutLine (line : String)
  | launchTunnel (relayDataAddr sessionToken registeredHostID : String)
deriving DecidableEq

/-- The stdout contract line: the fixed prefix, the identity, a newline. -/
def effectiveHostIDLine (id : String) : String := "EFFECTIVE_HOST_ID:" ++ id ++ "\n"

/-- Dispatch of one parsed control line inside manageRelayRegistrationAndTunnels,
over the whitespace-split fields of the received line.  The result is an error
exactly when the Go code panics: a well-formed CREATE_TUNNEL reaching the
tunnel launch evaluates the slice sessionToken up to index 6 (in the relay
status label when a GUI is present, and unconditionally in the log context of
handleHostSideTunnel), which panics for tokens shorter than six characters.
bcryptMatch stands for bcrypt.CompareHashAndPassword succeeding. -/
def manageRelayDispatch (relayCtrlAddrFull : String)
    (bcryptMatch : String → String → Bool) (st : HostState)
    (parts : List String) : Except String (HostState × List RelayEffect) :=
  match parts with
  | [] => Except.ok (st, [])
  | command :: args =>
    if command = "HOST_REGISTERED" then
      match args with
      | [] => Except.ok (st, [])
      | assignedID :: _ =>
        Except.ok ({ st with currentRelayHostID := assignedID },
          [RelayEffect.stdoutLine (effectiveHostIDLine assignedID)])
    else if command = "VERIFY_PASSWORD_REQUEST" then
      match args with
      | [] => Except.ok (st, [])
      | requestToken :: pwFields =>
        let attempt := goJoinSpace pwFields
        let isValid : Bool :=
          (st.sessionPasswordHash == "") || bcryptMatch st.sessionPasswordHash attempt
        Except.ok (st, [RelayEffect.sendToRelay
          ("VERIFY_PASSWORD_RESPONSE " ++ requestToken ++ " " ++ goBoolStr isValid ++ "\n")])
    else if command = "CREATE_TUNNEL" then
      match args with
      | relayDynamicPortStr :: sessionToken :: _ =>
        if st.currentRelayHostID = "" then Except.ok (st, [])
        else
          match goSplitHostPort relayCtrlAddrFull with
          | none => Except.ok (st, [])
          | some (relayHostIP, _) =>
            if sessionToken.length < 6 then
              Except.error "slice bounds out of range [:6]"
            else
              Except.ok (st, [RelayEffect.launchTunnel
                (goJoinHostPort relayHostIP relayDynamicPortStr) sessionToken
                st.currentRelayHostID])
      | _ => Except.ok (st, [])
    else Except.ok (st, [])

/-- One raw line from the relay: trimmed, split into fields, dispatched. -/
def manageRelayLineStep (relayCtrlAddrFull : String)
    (bcryptMatch : String → String → Bool) (st : HostState) (line : String) :
    Except String (HostState × List RelayEffect) :=
  manageRelayDispatch relayCtrlAddrFull bcryptMatch st (goFields (goTrimSpace line))

/-- The control-connection read loop over a list of received lines, threading
the host state and concatenating the emitted effects; a panic aborts it. -/
def manageRelayReadLoop (relayCtrlAddrFull : String)
    (bcryptMatch : String → String → Bool) :
    HostState → List String → Except String (HostState × List RelayEffect)
  | st, [] => Except.ok (st, [])
  | st, line :: rest =>
    match manageRelayLineStep relayCtrlAddrFull bcryptMatch st line with
    | Except.error e => Except.error e
    | Except.ok (st1, effs) =>
      match manageRelayReadLoop relayCtrlAddrFull bcryptMatch st1 rest with
      | Except.error e => Except.error e
      | Except.ok (st2, effs2) => Except.ok (st2, effs ++ effs2)

/-- The field-lists that the control loop logs and ignores: a CREATE_TUNNEL
with fewer than three fields, a VERIFY_PASSWORD_REQUEST with fewer than two,
a CREATE_TUNNEL before an identity was assigned, and any unknown command. -/
def ignoredRelayParts (st : HostState) (parts : List String) : Prop :=
  (parts.head? = some "CREATE_TUNNEL" ∧ parts.length < 3) ∨
  (parts.head? = some "VERIFY_PASSWORD_REQUEST" ∧ parts.length < 2) ∨
  (parts.head? = some "CREATE_TUNNEL" ∧ st.currentRelayHostID = "") ∨
  (parts ≠ [] ∧ parts.head? ≠ some "HOST_REGISTERED" ∧
    parts.head? ≠ some "VERIFY_PASSWORD_REQUEST" ∧ parts.head? ≠ some "CREATE_TUNNEL")

instance (st : HostState) (parts : List String) :
    Decidable (ignoredRelayParts st parts) := by
  unfold ignoredRelayParts
  infer_instance

/-- Stdout lines printed at startup by main: the GUI setup block prints the
identity line in direct mode, and the common startup path prints it again in
direct mode regardless of GUI; relay mode prints nothing at startup. -/
def startupStdoutLines (enableRelay headless : Bool) (initialHostID : String) :
    List String :=
  (if !headless && !enableRelay then [effectiveHostIDLine initialHostID] else []) ++
  (if !enableRelay then [effectiveHostIDLine initialHostID] else [])

/-- The stdout lines among a list of effects. -/
def stdoutEffects (effs : List RelayEffect) : List String :=
  effs.filterMap (fun e =>
    match e with
    | RelayEffect.stdoutLine s => some s
    | _ => none)

/-- The effects of a dispatch result; a panic emits none. -/
def resultEffects (r : Except String (HostState × List RelayEffect)) :
    List RelayEffect :=
  match r with
  | Except.error _ => []
  | Except.ok (_, effs) => effs

/-- Claim C3: for a VERIFY_PASSWORD_REQUEST carrying a token, the verdict is
valid for every attempt when no password hash is configured, and otherwise
valid exactly when the bcrypt comparison of the stored hash against the
space-joined remaining fields succeeds; in both cases the control loop emits a
VERIFY_PASSWORD_RESPONSE with that token and the verdict, and nothing else. -/
theorem C3_password_verification (relayAddr : String)
    (bcryptMatch : String → String → Bool) (st : HostState)
    (requestToken : String) (pwFields : List String) :
    manageRelayDispatch relayAddr bcryptMatch st
        ("VERIFY_PASSWORD_REQUEST" :: requestToken :: pwFields) =
      Except.ok (st, [RelayEffect.sendToRelay
        ("VERIFY_PASSWORD_RESPONSE " ++ requestToken ++ " " ++
          goBoolStr ((st.sessionPasswordHash == "") ||
            bcryptMatch st.sessionPasswordHash (goJoinSpace pwFields)) ++ "\n")]) ∧
    (st.sessionPasswordHash = "" →
      ((st.sessionPasswordHash == "") ||
        bcryptMatch st.sessionPasswordHash (goJoinSpace pwFields)) = true) ∧
    (st.sessionPasswordHash ≠ "" →
      ((st.sessionPasswordHash == "") ||
        bcryptMatch st.sessionPasswordHash (goJoinSpace pwFields)) =
        bcryptMatch st.sessionPasswordHash (goJoinSpace pwFields)) := by
  refine ⟨by simp [manageRelayDispatch], ?_, ?_⟩
  · intro h; simp [h]
  · intro h
    have hne : (st.sessionPasswordHash == "") = false := by
      simp [h]
    simp [hne]

/-- Witness for C3: with no configured hash the verdict is valid for a
two-word password attempt, and the response line carries the token. -/
theorem C3_witness :
    manageRelayDispatch "localhost:34000" (fun h p => h == p) ⟨"h1", ""⟩
        ["VERIFY_PASSWORD_REQUEST", "tok42", "my", "pass"] =
      Except.ok (⟨"h1", ""⟩, [RelayEffect.sendToRelay
        ("VERIFY_PASSWORD_RESPONSE " ++ "tok42" ++ " " ++
          goBoolStr ((("" : String) == "") || (("" : String) == goJoinSpace ["my", "pass"])) ++
          "\n")]) :=
  (C3_password_verification "localhost:34000" (fun h p => h == p) ⟨"h1", ""⟩
    "tok42" ["my", "pass"]).1

/-- Claim C2 (code evaluation at the failing input): a CREATE_TUNNEL line with
a registered host and a session token of two characters drives the dispatch
into the slice sessionToken up to index 6, which panics; the model reports the
Go runtime panic instead of absorbing the line. -/
theorem C2_short_token_panic :
    manageRelayDispatch "localhost:34000" (fun _ _ => false) ⟨"hostA", ""⟩
      ["CREATE_TUNNEL", "40000", "ab"] =
      Except.error "slice bounds out of range [:6]" := by
  rfl

theorem ignored_dispatch_eq (relayAddr : String)
    (bcryptMatch : String → String → Bool) (st : HostState)
    (parts : List String) (h : ignoredRelayParts st parts) :
    manageRelayDispatch relayAddr bcryptMatch st parts = Except.ok (st, []) := by
  rcases h with ⟨hhead, hlen⟩ | ⟨hhead, hlen⟩ | ⟨hhead, hid⟩ | ⟨hne, h1, h2, h3⟩
  · cases parts with
    | nil => simp at hhead
    | cons cmd args =>
      have hcmd : cmd = "CREATE_TUNNEL" := by simpa using hhead
      subst hcmd
      rcases args with _ | ⟨p, _ | ⟨t, r⟩⟩
      · simp [manageRelayDispatch]
      · simp [manageRelayDispatch]
      · simp at hlen; omega
  · cases parts with
    | nil => simp at hhead
    | cons cmd args =>
      have hcmd : cmd = "VERIFY_PASSWORD_REQUEST" := by simpa using hhead
      subst hcmd
      rcases args with _ | ⟨a, r⟩
      · simp [manageRelayDispatch]
      · simp at hlen; omega
  · cases parts with
    | nil => simp at hhead
    | cons cmd args =>
      have hcmd : cmd = "CREATE_TUNNEL" := by simpa using hhead
      subst hcmd
      rcases args with _ | ⟨p, _ | ⟨t, r⟩⟩
      · simp [manageRelayDispatch]
      · simp [manageRelayDispatch]
      · simp [manageRelayDispatch, hid]
  · cases parts with
    | nil => simp [manageRelayDispatch]
    | cons cmd args =>
      have h1c : cmd ≠ "HOST_REGISTERED" := by simpa using h1
      have h2c : cmd ≠ "VERIFY_PASSWORD_REQUEST" := by simpa using h2
      have h3c : cmd ≠ "CREATE_TUNNEL" := by simpa using h3
      simp [manageRelayDispatch, h1c, h2c, h3c]

/-- Claim C5: a CREATE_TUNNEL line with fewer than three fields, a
VERIFY_PASSWORD_REQUEST with fewer than two, a CREATE_TUNNEL received before
any identity was assigned, and an unknown command are each ignored: the state
is unchanged, no response is sent, no tunnel is launched, and the read loop
continues with the subsequent lines exactly as if the line had not arrived. -/
theorem C5_malformed_lines_ignored (relayAddr : String)
    (bcryptMatch : String → String → Bool) (st : HostState) (line : String)
    (restLines : List String)
    (h : ignoredRelayParts st (goFields (goTrimSpace line))) :
    manageRelayLineStep relayAddr bcryptMatch st line = Except.ok (st, []) ∧
    manageRelayReadLoop relayAddr bcryptMatch st (line :: restLines) =
      manageRelayReadLoop relayAddr bcryptMatch st restLines := by
  have hstep : manageRelayLineStep relayAddr bcryptMatch st line = Except.ok (st, []) :=
    ignored_dispatch_eq relayAddr bcryptMatch st _ h
  refine ⟨hstep, ?_⟩
  cases hrest : manageRelayReadLoop relayAddr bcryptMatch st restLines with
  | error e => simp [manageRelayReadLoop, hstep, hrest]
  | ok v => simp [manageRelayReadLoop, hstep, hrest]

/-- Witness for C5: a two-field CREATE_TUNNEL line is ignored while the next
line still gets processed. -/
theorem C5_witness :
    manageRelayLineStep "localhost:34000" (fun _ _ => false) ⟨"hostA", "x"⟩
        "CREATE_TUNNEL 40000" = Except.ok (⟨"hostA", "x"⟩, []) ∧
    manageRelayReadLoop "localhost:34000" (fun _ _ => false) ⟨"hostA", "x"⟩
        ["CREATE_TUNNEL 40000", "UNKNOWN_CMD 1"] =
      manageRelayReadLoop "localhost:34000" (fun _ _ => false) ⟨"hostA", "x"⟩
        ["UNKNOWN_CMD 1"] :=
  C5_malformed_lines_ignored "localhost:34000" (fun _ _ => false) ⟨"hostA", "x"⟩
    "CREATE_TUNNEL 40000" ["UNKNOWN_CMD 1"] (by decide)

/-- Counterexample to claim C8 as stated: in direct mode with the GUI enabled
the identity line is printed twice at startup (once from the GUI setup block
and once from the common startup path), not exactly once. -/
theorem C8_counterexample :
    (startupStdoutLines false false "ab12cd34").length ≠ 1 := by
  decide

/-- Claim C8 amended: the identity line (fixed prefix, identity, newline) is
written to stdout exactly once at startup in direct headless mode, exactly
twice at startup in direct GUI mode (GUI setup block plus common path), never
at startup in relay mode; in relay mode it is written exactly once per
successful HOST_REGISTERED response, and by no other control command. -/
theorem C8_amended_host_id_emission (relayAddr : String)
    (bcryptMatch : String → String → Bool) (st : HostState)
    (assignedID : String) (rest : List String) (parts : List String)
    (initialHostID : String)
    (hparts : parts.head? ≠ some "HOST_REGISTERED") :
    startupStdoutLines false true initialHostID = [effectiveHostIDLine initialHostID] ∧
    startupStdoutLines false false initialHostID =
      [effectiveHostIDLine initialHostID, effectiveHostIDLine initialHostID] ∧
    (∀ headless : Bool, startupStdoutLines true headless initialHostID = []) ∧
    manageRelayDispatch relayAddr bcryptMatch st ("HOST_REGISTERED" :: assignedID :: rest) =
      Except.ok ({ st with currentRelayHostID := assignedID },
        [RelayEffect.stdoutLine (effectiveHostIDLine assignedID)]) ∧
    stdoutEffects (resultEffects (manageRelayDispatch relayAddr bcryptMatch st parts)) = [] := by
  refine ⟨rfl, rfl, ?_, by simp [manageRelayDispatch], ?_⟩
  · intro headless; cases headless <;> rfl
  · cases parts with
    | nil => simp [manageRelayDispatch, resultEffects, stdoutEffects]
    | cons cmd args =>
      have hcmd : cmd ≠ "HOST_REGISTERED" := by simpa using hparts
      by_cases hv : cmd = "VERIFY_PASSWORD_REQUEST"
      · subst hv
        rcases args with _ | ⟨tok, pw⟩ <;>
          simp [manageRelayDispatch, resultEffects, stdoutEffects]
      · by_cases hc : cmd = "CREATE_TUNNEL"
        · subst hc
          rcases args with _ | ⟨p, _ | ⟨t, r⟩⟩
          · simp [manageRelayDispatch, resultEffects, stdoutEffects]
          · simp [manageRelayDispatch, resultEffects, stdoutEffects]
          · by_cases hid : st.currentRelayHostID = ""
            · simp [manageRelayDispatch, hid, resultEffects, stdoutEffects]
            · cases hsp : goSplitHostPort relayAddr with
              | none =>
                simp [manageRelayDispatch, hid, hsp, resultEffects, stdoutEffects]
              | some pr =>
                by_cases htl : t.length < 6
                · simp [manageRelayDispatch, hid, hsp, htl, resultEffects, stdoutEffects]
                · simp [manageRelayDispatch, hid, hsp, htl, resultEffects, stdoutEffects]
        · simp [manageRelayDispatch, hcmd, hv, hc, resultEffects, stdoutEffects]

/-- Witness for C8: concrete direct-mode startup emissions, a concrete
HOST_REGISTERED emission, and a concrete non-emitting command. -/
theorem C8_witness :
    startupStdoutLines false true "id1" = [effectiveHostIDLine "id1"] ∧
    startupStdoutLines false false "id1" =
      [effectiveHostIDLine "id1", effectiveHostIDLine "id1"] ∧
    (∀ headless : Bool, startupStdoutLines true headless "id1" = []) ∧
    manageRelayDispatch "localhost:34000" (fun _ _ => false) ⟨"", ""⟩
        ("HOST_REGISTERED" :: "newid99" :: []) =
      Except.ok (⟨"newid99", ""⟩,
        [RelayEffect.stdoutLine (effectiveHostIDLine "newid99")]) ∧
    stdoutEffects (resultEffects (manageRelayDispatch "localhost:34000"
      (fun _ _ => false) ⟨"", ""⟩ ["UNKNOWN_CMD", "z"])) = [] :=
  C8_amended_host_id_emission "localhost:34000" (fun _ _ => false) ⟨"", ""⟩
    "newid99" [] ["UNKNOWN_CMD", "z"] "id1" (by decide)

/-- The transport events one connectViaRelay call can observe: whether the
dial failed, whether the request write failed, and the read outcome (an error
or the raw response line). -/
structure RelayTransport where
  dialErr : Option String
  writeErr : Option String
  readRes : Except String String

/-- The tuple connectViaRelay returns (connected flag, relay data address,
session token, error message), plus whether the deferred Close of the control
connection ran before returning (it runs on every path once the dial
succeeded). -/
structure ConnectResult where
  connected : Bool
  relayDataAddrForClient : String
  sessionToken : String
  errMsg : Option String
  controlConnClosed : Bool
deriving DecidableEq

/-- The response-line handling of connectViaRelay, over the trimmed response:
dispatch on the first whitespace-separated field, exactly as the code's
switch, producing the returned tuple and its error message strings. -/
def parseRelayResponse (targetHostID relayControlAddr response : String) :
    ConnectResult :=
  match goFields response with
  | [] =>
    ⟨false, "", "", some ("empty or invalid response from relay: " ++ response), true⟩
  | cmd :: rest =>
    if cmd = "SESSION_READY" then
      match rest with
      | dynamicPortStr :: sessionTokenOut :: _ =>
        match goSplitHostPort relayControlAddr with
        | none =>
          ⟨false, "", "", some ("could not parse host from relayControlAddr '" ++
            relayControlAddr ++ "': address " ++ relayControlAddr ++
            ": missing port in address"), true⟩
        | some (relayHost, _) =>
          ⟨true, goJoinHostPort relayHost dynamicPortStr, sessionTokenOut, none, true⟩
      | _ =>
        ⟨false, "", "", some ("invalid SESSION_READY response from relay: " ++ response), true⟩
    else if cmd = "ERROR_HOST_NOT_FOUND" then
      ⟨false, "", "", some ("relay server reported HostID '" ++ targetHostID ++
        "' not found"), true⟩
    else if cmd = "ERROR_AUTHENTICATION_FAILED" then
      ⟨false, "", "", some ("authentication failed for HostID '" ++ targetHostID ++
        "'"), true⟩
    else
      ⟨false, "", "", some ("unexpected response from relay: " ++ response), true⟩

/-- Model of connectViaRelay: dial with timeout, send the single
INITIATE_CLIENT_SESSION request, read the single response line under a read
deadline, then dispatch on it.  The deferred Close marks the control
connection closed on every path after a successful dial. -/
def connectViaRelay (targetHostID plainTextPassword relayControlAddr : String)
    (t : RelayTransport) : ConnectResult :=
  match t.dialErr with
  | some e =>
    ⟨false, "", "", some ("failed to connect to relay control server " ++
      relayControlAddr ++ ": " ++ e), false⟩
  | none =>
    match t.writeErr with
    | some e =>
      ⟨false, "", "", some ("failed to send INITIATE_CLIENT_SESSION to relay: " ++ e), true⟩
    | none =>
      match t.readRes with
      | Except.error e =>
        ⟨false, "", "", some ("failed to read response from relay server: " ++ e), true⟩
      | Except.ok raw =>
        parseRelayResponse targetHostID relayControlAddr (goTrimSpace raw)

/-- The four outcome classes of a relay connection attempt. -/
inductive RelayOutcome
  | success
  | hostNotFound
  | authFailed
  | failure
deriving DecidableEq

/-- Boolean string starts-with test, via list-prefix on character lists. -/
def strStartsWith (s p : String) : Bool := decide (p.toList <+: s.toList)

/-- The classification a caller can compute from the returned tuple alone:
the connected flag separates success, and the two fixed error-message heads
separate host-not-found and authentication-failed from the generic
transport/protocol failures. -/
def classifyRelayOutcome (r : ConnectResult) : RelayOutcome :=
  if r.connected then RelayOutcome.success
  else
    match r.errMsg with
    | none => RelayOutcome.failure
    | some m =>
      if strStartsWith m "relay server reported HostID '" then RelayOutcome.hostNotFound
      else if strStartsWith m "authentication failed for HostID '" then RelayOutcome.authFailed
      else RelayOutcome.failure

/-- The outcome class a well-formed response line should land in, from its
whitespace-split fields: success exactly for a SESSION_READY with at least two
arguments and a parsable relay address, the two terminal relay errors for
their commands, and a generic failure otherwise. -/
def expectedResponseOutcome (relayControlAddr : String) (parts : List String) :
    RelayOutcome :=
  match parts with
  | [] => RelayOutcome.failure
  | cmd :: rest =>
    if cmd = "SESSION_READY" then
      match rest with
      | _ :: _ :: _ =>
        match goSplitHostPort relayControlAddr with
        | none => RelayOutcome.failure
        | some _ => RelayOutcome.success
      | _ => RelayOutcome.failure
    else if cmd = "ERROR_HOST_NOT_FOUND" then RelayOutcome.hostNotFound
    else if cmd = "ERROR_AUTHENTICATION_FAILED" then RelayOutcome.authFailed
    else RelayOutcome.failure

/-- The outcome class determined by what actually happened on the wire:
every transport error is a generic failure, and a received line is classified
by its fields. -/
def relayOutcomeOfTransport (relayControlAddr : String) (t : RelayTransport) :
    RelayOutcome :=
  match t.dialErr with
  | some _ => RelayOutcome.failure
  | none =>
    match t.writeErr with
    | some _ => RelayOutcome.failure
    | none =>
      match t.readRes with
      | Except.error _ => RelayOutcome.failure
      | Except.ok raw =>
        expectedResponseOutcome relayControlAddr (goFields (goTrimSpace raw))

theorem notPrefixAppendOfIncomparable {p q s : List Char}
    (hpq : ¬ p <+: q) (hqp : ¬ q <+: p) : ¬ p <+: q ++ s := by
  intro h
  have hq : q <+: q ++ s := List.prefix_append q s
  have hcomp := List.prefix_or_prefix_of_prefix h hq
  exact hcomp.elim hpq hqp

theorem strStartsWithAppendSelf (p s : String) :
    strStartsWith (p ++ s) p = true := by
  apply decide_eq_true
  rw [show (p ++ s).toList = p.toList ++ s.toList from String.data_append p s]
  exact List.prefix_append _ _

theorem toListAppend (a b : String) : (a ++ b).toList = a.toList ++ b.toList :=
  String.data_append a b

theorem classify_some_failure {m x y : String} {b : Bool}
    (fixed tail : List Char) (hs : m.toList = fixed ++ tail)
    (h1 : ¬ "relay server reported HostID '".toList <+: fixed)
    (h2 : ¬ fixed <+: "relay server reported HostID '".toList)
    (h3 : ¬ "authentication failed for HostID '".toList <+: fixed)
    (h4 : ¬ fixed <+: "authentication failed for HostID '".toList) :
    classifyRelayOutcome ⟨false, x, y, some m, b⟩ = RelayOutcome.failure := by
  have hnp1 : ¬ ("relay server reported HostID '".toList <+: m.toList) := by
    rw [hs]; exact notPrefixAppendOfIncomparable h1 h2
  have hnp2 : ¬ ("authentication failed for HostID '".toList <+: m.toList) := by
    rw [hs]; exact notPrefixAppendOfIncomparable h3 h4
  have c1 : strStartsWith m "relay server reported HostID '" = false :=
    decide_eq_false hnp1
  have c2 : strStartsWith m "authentication failed for HostID '" = false :=
    decide_eq_false hnp2
  simp [classifyRelayOutcome, c1, c2]

theorem classify_some_hostNotFound {m x y : String} {b : Bool} (tail : List Char)
    (hs : m.toList = "relay server reported HostID '".toList ++ tail) :
    classifyRelayOutcome ⟨false, x, y, some m, b⟩ = RelayOutcome.hostNotFound := by
  have c1 : strStartsWith m "relay server reported HostID '" = true := by
    apply decide_eq_true
    rw [hs]
    exact List.prefix_append _ _
  simp [classifyRelayOutcome, c1]

theorem classify_some_authFailed {m x y : String} {b : Bool} (tail : List Char)
    (hs : m.toList = "authentication failed for HostID '".toList ++ tail) :
    classifyRelayOutcome ⟨false, x, y, some m, b⟩ = RelayOutcome.authFailed := by
  have hnp1 : ¬ ("relay server reported HostID '".toList <+: m.toList) := by
    rw [hs]
    exact notPrefixAppendOfIncomparable (by decide) (by decide)
  have c1 : strStartsWith m "relay server reported HostID '" = false :=
    decide_eq_false hnp1
  have c2 : strStartsWith m "authentication failed for HostID '" = true := by
    apply decide_eq_true
    rw [hs]
    exact List.prefix_append _ _
  simp [classifyRelayOutcome, c1, c2]

theorem parseRelayShape (a b resp : String) :
    ((parseRelayResponse a b resp).connected = true ↔
      (parseRelayResponse a b resp).errMsg = none) ∧
    (parseRelayResponse a b resp).controlConnClosed = true := by
  unfold parseRelayResponse
  repeat' split
  all_goals simp

theorem classifyParseEq (targetHostID relayControlAddr response : String) :
    classifyRelayOutcome (parseRelayResponse targetHostID relayControlAddr response) =
      expectedResponseOutcome relayControlAddr (goFields response) := by
  cases hf : goFields response with
  | nil =>
    simp only [parseRelayResponse, expectedResponseOutcome, hf]
    exact classify_some_failure "empty or invalid response from relay: ".toList
      response.toList (toListAppend _ _) (by decide) (by decide) (by decide) (by decide)
  | cons cmd rest =>
    simp only [parseRelayResponse, expectedResponseOutcome, hf]
    by_cases hS : cmd = "SESSION_READY"
    · rw [if_pos hS, if_pos hS]
      cases rest with
      | nil =>
        exact classify_some_failure "invalid SESSION_READY response from relay: ".toList
          response.toList (toListAppend _ _) (by decide) (by decide) (by decide) (by decide)
      | cons dp rest2 =>
        cases rest2 with
        | nil =>
          exact classify_some_failure "invalid SESSION_READY response from relay: ".toList
            response.toList (toListAppend _ _) (by decide) (by decide) (by decide) (by decide)
        | cons tok more =>
          cases hsp : goSplitHostPort relayControlAddr with
          | none =>
            refine classify_some_failure "could not parse host from relayControlAddr '".toList
              (relayControlAddr.toList ++ ("': address ".toList ++
                (relayControlAddr.toList ++ ": missing port in address".toList)))
              ?_ (by decide) (by decide) (by decide) (by decide)
            simp [toListAppend]
          | some pr =>
            obtain ⟨relayHost, port⟩ := pr
            simp [classifyRelayOutcome]
    · rw [if_neg hS, if_neg hS]
      by_cases hH : cmd = "ERROR_HOST_NOT_FOUND"
      · rw [if_pos hH, if_pos hH]
        refine classify_some_hostNotFound
          (targetHostID.toList ++ "' not found".toList) ?_
        simp [toListAppend]
      · rw [if_neg hH, if_neg hH]
        by_cases hA : cmd = "ERROR_AUTHENTICATION_FAILED"
        · rw [if_pos hA, if_pos hA]
          refine classify_some_authFailed (targetHostID.toList ++ "'".toList) ?_
          simp [toListAppend]
        · rw [if_neg hA, if_neg hA]
          exact classify_some_failure "unexpected response from relay: ".toList
            response.toList (toListAppend _ _) (by decide) (by decide) (by decide) (by decide)

/-- Claim C7: connectViaRelay performs one request/response exchange, closes
the control connection before returning on every path where it was opened,
and its returned tuple falls into exactly one of four caller-distinguishable
outcome classes that match what happened on the wire: success (carrying the
relay data address built from the dynamic port and the session token),
host-not-found, authentication-failed, or a generic transport/protocol
failure.  Success is precisely the connected result with no error. -/
theorem C7_connectViaRelay_four_outcomes
    (targetHostID plainTextPassword relayControlAddr : String)
    (t : RelayTransport) :
    (t.dialErr = none →
      (connectViaRelay targetHostID plainTextPassword relayControlAddr t).controlConnClosed
        = true) ∧
    classifyRelayOutcome (connectViaRelay targetHostID plainTextPassword relayControlAddr t)
      = relayOutcomeOfTransport relayControlAddr t ∧
    ((connectViaRelay targetHostID plainTextPassword relayControlAddr t).connected = true ↔
      (connectViaRelay targetHostID plainTextPassword relayControlAddr t).errMsg = none) ∧
    (∀ raw dp tok more relayHost port,
      t.dialErr = none → t.writeErr = none → t.readRes = Except.ok raw →
      goFields (goTrimSpace raw) = "SESSION_READY" :: dp :: tok :: more →
      goSplitHostPort relayControlAddr = some (relayHost, port) →
      connectViaRelay targetHostID plainTextPassword relayControlAddr t =
        ⟨true, goJoinHostPort relayHost dp, tok, none, true⟩) := by
  obtain ⟨d, w, rr⟩ := t
  refine ⟨?_, ?_, ?_, ?_⟩
  · intro hd
    simp only at hd
    subst hd
    cases w with
    | some e => rfl
    | none =>
      cases rr with
      | error e => rfl
      | ok raw => exact (parseRelayShape targetHostID relayControlAddr (goTrimSpace raw)).2
  · cases d with
    | some e =>
      refine classify_some_failure "failed to connect to relay control server ".toList
        (relayControlAddr.toList ++ (": ".toList ++ e.toList)) ?_
        (by decide) (by decide) (by decide) (by decide)
      simp [toListAppend]
    | none =>
      cases w with
      | some e =>
        exact classify_some_failure "failed to send INITIATE_CLIENT_SESSION to relay: ".toList
          e.toList (toListAppend _ _) (by decide) (by decide) (by decide) (by decide)
      | none =>
        cases rr with
        | error e =>
          exact classify_some_failure "failed to read response from relay server: ".toList
            e.toList (toListAppend _ _) (by decide) (by decide) (by decide) (by decide)
        | ok raw =>
          exact classifyParseEq targetHostID relayControlAddr (goTrimSpace raw)
  · cases d with
    | some e => simp [connectViaRelay]
    | none =>
      cases w with
      | some e => simp [connectViaRelay]
      | none =>
        cases rr with
        | error e => simp [connectViaRelay]
        | ok raw =>
          exact (parseRelayShape targetHostID relayControlAddr (goTrimSpace raw)).1
  · intro raw dp tok more relayHost port hd hw hr hfields hsplit
    simp only at hd hw hr
    subst hd
    subst hw
    subst hr
    show parseRelayResponse targetHostID relayControlAddr (goTrimSpace raw) = _
    simp only [parseRelayResponse, hfields, if_true]
    rw [hsplit]

/-- Witness for C7: a concrete successful exchange is classified success with
the constructed data address and token, the control connection is closed, and
a concrete ERROR_HOST_NOT_FOUND response is classified host-not-found. -/
theorem C7_witness :
    connectViaRelay "hostX" "" "relay.example.com:34000"
        ⟨none, none, Except.ok "SESSION_READY 40123 tokenABC\n"⟩ =
      ⟨true, goJoinHostPort "relay.example.com" "40123", "tokenABC", none, true⟩ ∧
    (connectViaRelay "hostX" "" "relay.example.com:34000"
        ⟨none, none, Except.ok "SESSION_READY 40123 tokenABC\n"⟩).controlConnClosed = true ∧
    classifyRelayOutcome (connectViaRelay "hostX" "" "relay.example.com:34000"
        ⟨none, none, Except.ok "ERROR_HOST_NOT_FOUND\n"⟩) =
      relayOutcomeOfTransport "relay.example.com:34000"
        ⟨none, none, Except.ok "ERROR_HOST_NOT_FOUND\n"⟩ :=
  ⟨(C7_connectViaRelay_four_outcomes "hostX" "" "relay.example.com:34000"
      ⟨none, none, Except.ok "SESSION_READY 40123 tokenABC\n"⟩).2.2.2
      "SESSION_READY 40123 tokenABC\n" "40123" "tokenABC" [] "relay.example.com" "34000"
      rfl rfl rfl (by decide) (by decide),
   (C7_connectViaRelay_four_outcomes "hostX" "" "relay.example.com:34000"
      ⟨none, none, Except.ok "SESSION_READY 40123 tokenABC\n"⟩).1 rfl,
   (C7_connectViaRelay_four_outcomes "hostX" "" "relay.example.com:34000"
      ⟨none, none, Except.ok "ERROR_HOST_NOT_FOUND\n"⟩).2.1⟩

/-- The atomic actions of the two copy goroutines of handleHostSideTunnel.
Goroutine A copies relay-to-local, goroutine B copies local-to-relay; each has
one copy-completion action, the two connection closes its deferred calls run
(in LIFO defer order), and its WaitGroup Done. -/
inductive TAction
  | copyA
  | closeLocalA
  | closeHostA
  | doneA
  | copyB
  | closeHostB
  | closeLocalB
  | doneB
deriving DecidableEq

/-- The relay-to-local goroutine: the copy completes, then its defers run in
LIFO order (localServiceConn.Close, hostProxyConn.Close, wg.Done). -/
def relayToLocalTrace : List TAction :=
  [TAction.copyA, TAction.closeLocalA, TAction.closeHostA, TAction.doneA]

/-- The local-to-relay goroutine: the copy completes, then its defers run in
LIFO order (hostProxyConn.Close, localServiceConn.Close, wg.Done). -/
def localToRelayTrace : List TAction :=
  [TAction.copyB, TAction.closeHostB, TAction.closeLocalB, TAction.doneB]

/-- The shared state of one bridge invocation: whether each of the two
connections is still open, whether each copy loop has completed, and whether
each goroutine has signalled the WaitGroup. -/
structure TunnelState where
  hostProxyOpen : Bool
  localServiceOpen : Bool
  relayToLocalFinished : Bool
  localToRelayFinished : Bool
  relayToLocalDone : Bool
  localToRelayDone : Bool
deriving DecidableEq

/-- Effect of one atomic action; Close on an already-closed connection stays
closed (the duplicate close only yields an ignored error). -/
def applyTunnelAction (st : TunnelState) (a : TAction) : TunnelState :=
  match a with
  | TAction.copyA => { st with relayToLocalFinished := true }
  | TAction.closeLocalA => { st with localServiceOpen := false }
  | TAction.closeHostA => { st with hostProxyOpen := false }
  | TAction.doneA => { st with relayToLocalDone := true }
  | TAction.copyB => { st with localToRelayFinished := true }
  | TAction.closeHostB => { st with hostProxyOpen := false }
  | TAction.closeLocalB => { st with localServiceOpen := false }
  | TAction.doneB => { st with localToRelayDone := true }

/-- Run a trace of actions from a state. -/
def runTunnel (st : TunnelState) : List TAction → TunnelState
  | [] => st
  | a :: tr => runTunnel (applyTunnelAction st a) tr

/-- Both connections established, nothing copied, nothing signalled. -/
def initTunnelState : TunnelState := ⟨true, true, false, false, false, false⟩

/-- An interleaving of two per-goroutine action sequences into one global
schedule; every schedule the Go runtime can produce is such a merge. -/
inductive Interleaving : List TAction → List TAction → List TAction → Prop
  | nil : Interleaving [] [] []
  | left {a : TAction} {as bs cs : List TAction} :
      Interleaving as bs cs → Interleaving (a :: as) bs (a :: cs)
  | right {b : TAction} {as bs cs : List TAction} :
      Interleaving as bs cs → Interleaving as (b :: bs) (b :: cs)

theorem interleavingMemIff {as bs cs : List TAction}
    (h : Interleaving as bs cs) (x : TAction) : x ∈ cs ↔ x ∈ as ∨ x ∈ bs := by
  induction h with
  | nil => simp
  | left _ ih => simp [ih]; tauto
  | right _ ih => simp [ih]; tauto

theorem interleavingSplit {as bs cs : List TAction}
    (h : Interleaving as bs cs) :
    ∀ p q : List TAction, cs = p ++ q →
      ∃ ap bp aq bq, as = ap ++ aq ∧ bs = bp ++ bq ∧ Interleaving ap bp p := by
  induction h with
  | nil =>
    intro p q hpq
    have hp : p = [] := by
      cases p with
      | nil => rfl
      | cons x xs => simp at hpq
    subst hp
    exact ⟨[], [], [], [], rfl, rfl, Interleaving.nil⟩
  | @left a as bs cs _ ih =>
    intro p q hpq
    cases p with
    | nil =>
      exact ⟨[], [], a :: as, bs, rfl, rfl, Interleaving.nil⟩
    | cons x xs =>
      simp at hpq
      obtain ⟨hx, hcs⟩ := hpq
      obtain ⟨ap, bp, aq, bq, ha, hb, hint⟩ := ih xs q hcs
      exact ⟨a :: ap, bp, aq, bq, by simp [ha], hb, hx ▸ Interleaving.left hint⟩
  | @right b as bs cs _ ih =>
    intro p q hpq
    cases p with
    | nil =>
      exact ⟨[], [], as, b :: bs, rfl, rfl, Interleaving.nil⟩
    | cons x xs =>
      simp at hpq
      obtain ⟨hx, hcs⟩ := hpq
      obtain ⟨ap, bp, aq, bq, ha, hb, hint⟩ := ih xs q hcs
      exact ⟨ap, b :: bp, aq, bq, ha, by simp [hb], hx ▸ Interleaving.right hint⟩

theorem runTunnelHostOpen (tr : List TAction) (st : TunnelState) :
    ((runTunnel st tr).hostProxyOpen = false ↔
      (st.hostProxyOpen = false ∨ TAction.closeHostA ∈ tr ∨ TAction.closeHostB ∈ tr)) := by
  induction tr generalizing st with
  | nil => simp [runTunnel]
  | cons a tr ih =>
    cases a <;> simp [runTunnel, applyTunnelAction, ih]

theorem runTunnelLocalOpen (tr : List TAction) (st : TunnelState) :
    ((runTunnel st tr).localServiceOpen = false ↔
      (st.localServiceOpen = false ∨ TAction.closeLocalA ∈ tr ∨ TAction.closeLocalB ∈ tr)) := by
  induction tr generalizing st with
  | nil => simp [runTunnel]
  | cons a tr ih =>
    cases a <;> simp [runTunnel, applyTunnelAction, ih]

theorem runTunnelFinishedA (tr : List TAction) (st : TunnelState) :
    ((runTunnel st tr).relayToLocalFinished = true ↔
      (st.relayToLocalFinished = true ∨ TAction.copyA ∈ tr)) := by
  induction tr generalizing st with
  | nil => simp [runTunnel]
  | cons a tr ih =>
    cases a <;> simp [runTunnel, applyTunnelAction, ih]

theorem runTunnelFinishedB (tr : List TAction) (st : TunnelState) :
    ((runTunnel st tr).localToRelayFinished = true ↔
      (st.localToRelayFinished = true ∨ TAction.copyB ∈ tr)) := by
  induction tr generalizing st with
  | nil => simp [runTunnel]
  | cons a tr ih =>
    cases a <;> simp [runTunnel, applyTunnelAction, ih]

theorem runTunnelDoneA (tr : List TAction) (st : TunnelState) :
    ((runTunnel st tr).relayToLocalDone = true ↔
      (st.relayToLocalDone = true ∨ TAction.doneA ∈ tr)) := by
  induction tr generalizing st with
  | nil => simp [runTunnel]
  | cons a tr ih =>
    cases a <;> simp [runTunnel, applyTunnelAction, ih]

theorem runTunnelDoneB (tr : List TAction) (st : TunnelState) :
    ((runTunnel st tr).localToRelayDone = true ↔
      (st.localToRelayDone = true ∨ TAction.doneB ∈ tr)) := by
  induction tr generalizing st with
  | nil => simp [runTunnel]
  | cons a tr ih =>
    cases a <;> simp [runTunnel, applyTunnelAction, ih]

theorem relayToLocalDoneClosesBoth (ap : List TAction)
    (h : ap <+: relayToLocalTrace) (hd : TAction.doneA ∈ ap) :
    TAction.copyA ∈ ap ∧ TAction.closeLocalA ∈ ap ∧ TAction.closeHostA ∈ ap := by
  have hinits : relayToLocalTrace.inits =
      [[], [TAction.copyA], [TAction.copyA, TAction.closeLocalA],
       [TAction.copyA, TAction.closeLocalA, TAction.closeHostA],
       [TAction.copyA, TAction.closeLocalA, TAction.closeHostA, TAction.doneA]] := by
    decide
  have hm : ap ∈ relayToLocalTrace.inits := (List.mem_inits _ _).2 h
  rw [hinits] at hm
  fin_cases hm <;> simp_all

theorem localToRelayDoneClosesBoth (bp : List TAction)
    (h : bp <+: localToRelayTrace) (hd : TAction.doneB ∈ bp) :
    TAction.copyB ∈ bp ∧ TAction.closeHostB ∈ bp ∧ TAction.closeLocalB ∈ bp := by
  have hinits : localToRelayTrace.inits =
      [[], [TAction.copyB], [TAction.copyB, TAction.closeHostB],
       [TAction.copyB, TAction.closeHostB, TAction.closeLocalB],
       [TAction.copyB, TAction.closeHostB, TAction.closeLocalB, TAction.doneB]] := by
    decide
  have hm : bp ∈ localToRelayTrace.inits := (List.mem_inits _ _).2 h
  rw [hinits] at hm
  fin_cases hm <;> simp_all

/-- Claim C1: for every schedule (interleaving of the two copy goroutines of
handleHostSideTunnel, both connections established) and every prefix of it:
whenever a goroutine has signalled Done, its copy loop has completed and it
has closed BOTH connections (so the partner loop, blocked on a read of a now
closed connection, is unblocked); the bridge returns only once both goroutines
have signalled (wg.Wait), at which point both copy loops have finished and
both connections are closed; and at the end of every complete schedule both
loops are done and both connections are closed. -/
theorem C1_handleHostSideTunnel_bridge (tr p q : List TAction)
    (hmerge : Interleaving relayToLocalTrace localToRelayTrace tr)
    (hsplit : tr = p ++ q) :
    ((runTunnel initTunnelState p).relayToLocalDone = true →
      (runTunnel initTunnelState p).relayToLocalFinished = true ∧
      (runTunnel initTunnelState p).hostProxyOpen = false ∧
      (runTunnel initTunnelState p).localServiceOpen = false) ∧
    ((runTunnel initTunnelState p).localToRelayDone = true →
      (runTunnel initTunnelState p).localToRelayFinished = true ∧
      (runTunnel initTunnelState p).hostProxyOpen = false ∧
      (runTunnel initTunnelState p).localServiceOpen = false) ∧
    (q = [] →
      (runTunnel initTunnelState p).relayToLocalDone = true ∧
      (runTunnel initTunnelState p).localToRelayDone = true ∧
      (runTunnel initTunnelState p).relayToLocalFinished = true ∧
      (runTunnel initTunnelState p).localToRelayFinished = true ∧
      (runTunnel initTunnelState p).hostProxyOpen = false ∧
      (runTunnel initTunnelState p).localServiceOpen = false) := by
  obtain ⟨ap, bp, aq, bq, ha, hb, hint⟩ := interleavingSplit hmerge p q hsplit
  have hpreA : ap <+: relayToLocalTrace := ⟨aq, ha.symm⟩
  have hpreB : bp <+: localToRelayTrace := ⟨bq, hb.symm⟩
  have hsubA : ∀ x, x ∈ ap → x ∈ relayToLocalTrace := fun x hx => hpreA.subset hx
  have hsubB : ∀ x, x ∈ bp → x ∈ localToRelayTrace := fun x hx => hpreB.subset hx
  have hmemp := interleavingMemIff hint
  refine ⟨?_, ?_, ?_⟩
  · intro hdone
    have hdp : TAction.doneA ∈ p := by
      have := (runTunnelDoneA p initTunnelState).1 hdone
      simpa [initTunnelState] using this
    have hdap : TAction.doneA ∈ ap := by
      rcases (hmemp TAction.doneA).1 hdp with h | h
      · exact h
      · exact absurd (hsubB _ h) (by decide)
    obtain ⟨hcopy, hclosel, hcloseh⟩ := relayToLocalDoneClosesBoth ap hpreA hdap
    refine ⟨?_, ?_, ?_⟩
    · exact (runTunnelFinishedA p initTunnelState).2 (Or.inr ((hmemp TAction.copyA).2 (Or.inl hcopy)))
    · exact (runTunnelHostOpen p initTunnelState).2 (Or.inr (Or.inl ((hmemp TAction.closeHostA).2 (Or.inl hcloseh))))
    · exact (runTunnelLocalOpen p initTunnelState).2 (Or.inr (Or.inl ((hmemp TAction.closeLocalA).2 (Or.inl hclosel))))
  · intro hdone
    have hdp : TAction.doneB ∈ p := by
      have := (runTunnelDoneB p initTunnelState).1 hdone
      simpa [initTunnelState] using this
    have hdbp : TAction.doneB ∈ bp := by
      rcases (hmemp TAction.doneB).1 hdp with h | h
      · exact absurd (hsubA _ h) (by decide)
      · exact h
    obtain ⟨hcopy, hcloseh, hclosel⟩ := localToRelayDoneClosesBoth bp hpreB hdbp
    refine ⟨?_, ?_, ?_⟩
    · exact (runTunnelFinishedB p initTunnelState).2 (Or.inr ((hmemp TAction.copyB).2 (Or.inr hcopy)))
    · exact (runTunnelHostOpen p initTunnelState).2 (Or.inr (Or.inr ((hmemp TAction.closeHostB).2 (Or.inr hcloseh))))
    · exact (runTunnelLocalOpen p initTunnelState).2 (Or.inr (Or.inr ((hmemp TAction.closeLocalB).2 (Or.inr hclosel))))
  · intro hq
    subst hq
    have hptr : p = tr := by simpa using hsplit.symm
    subst hptr
    have hmemtr := interleavingMemIff hmerge
    refine ⟨?_, ?_, ?_, ?_, ?_, ?_⟩
    · exact (runTunnelDoneA p initTunnelState).2 (Or.inr ((hmemtr TAction.doneA).2 (Or.inl (by decide))))
    · exact (runTunnelDoneB p initTunnelState).2 (Or.inr ((hmemtr TAction.doneB).2 (Or.inr (by decide))))
    · exact (runTunnelFinishedA p initTunnelState).2 (Or.inr ((hmemtr TAction.copyA).2 (Or.inl (by decide))))
    · exact (runTunnelFinishedB p initTunnelState).2 (Or.inr ((hmemtr TAction.copyB).2 (Or.inr (by decide))))
    · exact (runTunnelHostOpen p initTunnelState).2 (Or.inr (Or.inl ((hmemtr TAction.closeHostA).2 (Or.inl (by decide)))))
    · exact (runTunnelLocalOpen p initTunnelState).2 (Or.inr (Or.inl ((hmemtr TAction.closeLocalA).2 (Or.inl (by decide)))))

/-- Witness for C1: the sequential schedule (goroutine A runs to completion,
then goroutine B) ends with both loops done and both connections closed. -/
theorem C1_witness :
    (runTunnel initTunnelState (relayToLocalTrace ++ localToRelayTrace)).relayToLocalDone = true ∧
    (runTunnel initTunnelState (relayToLocalTrace ++ localToRelayTrace)).localToRelayDone = true ∧
    (runTunnel initTunnelState (relayToLocalTrace ++ localToRelayTrace)).relayToLocalFinished = true ∧
    (runTunnel initTunnelState (relayToLocalTrace ++ localToRelayTrace)).localToRelayFinished = true ∧
    (runTunnel initTunnelState (relayToLocalTrace ++ localToRelayTrace)).hostProxyOpen = false ∧
    (runTunnel initTunnelState (relayToLocalTrace ++ localToRelayTrace)).localServiceOpen = false :=
  (C1_handleHostSideTunnel_bridge (relayToLocalTrace ++ localToRelayTrace)
    (relayToLocalTrace ++ localToRelayTrace) []
    (by
      repeat
        first
        | exact Interleaving.nil
        | apply Interleaving.left
        | apply Interleaving.right)
    (by simp)).2.2 rfl
